import Mathlib

/-!
Verification of the Etlon coffee-shop Telegram bot core:
the loyalty ledger (`bot/loyalty.py`), the order store (`bot/database.py`)
and the cart-merging logic of the checkout handlers (`bot/handlers/client.py`).

Python integers are embedded as `Int`; Python `//` (floor division) is
`Int.fdiv`.  SQLite rows are embedded as records, tables as functions or
lists; the append-only `points_history` table is a `List` in insertion
order.  Every stateful Python coroutine that reads and writes the database
inside one transaction becomes a pure function from the database state to a
(result, new state) pair.
-/

namespace Etlon

/-! ## Loyalty constants — `bot/loyalty.py` lines 12-14 -/

def POINTS_PER_100_RUB : Int := 5
def MAX_REDEEM_PERCENT : Int := 30
def STAMPS_FOR_FREE_DRINK : Int := 6

/-! ## Loyalty data model — tables `loyalty` and `points_history`
(`bot/database.py` LOYALTY_SCHEMA) -/

/-- One row of the `loyalty` table (all columns `DEFAULT 0`). -/
structure Account where
  points : Int
  stamps : Int
  total_orders : Int
  total_spent : Int
deriving DecidableEq, Repr

/-- A freshly inserted `loyalty` row: every counter defaults to 0. -/
def Account.zero : Account := ⟨0, 0, 0, 0⟩

/-- One row of the append-only `points_history` table. -/
structure HEntry where
  user_id : Int
  amount : Int
  operation : String
  order_id : Int
  description : String
deriving DecidableEq, Repr

/-- The loyalty database: `loyalty` keyed by user id, plus the
`points_history` rows in insertion (rowid) order. -/
structure LoyaltyDB where
  accounts : Int → Option Account
  history : List HEntry

/-- Replace (or create) the `loyalty` row of one user. -/
def setAccount (user_id : Int) (a : Account) (f : Int → Option Account) :
    Int → Option Account :=
  fun u => if u = user_id then some a else f u

/-! ## Loyalty operations — `bot/loyalty.py` -/

/-- `get_or_create_loyalty` (lines 17-51): return the row, creating a
zero row on first access. -/
def get_or_create_loyalty (user_id : Int) (s : LoyaltyDB) : Account × LoyaltyDB :=
  match s.accounts user_id with
  | some a => (a, s)
  | none =>
    (Account.zero, { s with accounts := setAccount user_id Account.zero s.accounts })

/-- `accrue_points` (lines 54-107): `points_earned = order_total // 100 *
POINTS_PER_100_RUB`; if `points_earned <= 0` return 0 without touching the
database; otherwise `INSERT OR IGNORE` the row, add the points, bump the
lifetime counters and append one `"accrual"` history row. -/
def accrue_points (user_id order_total order_id : Int) (s : LoyaltyDB) :
    Int × LoyaltyDB :=
  let points_earned := order_total.fdiv 100 * POINTS_PER_100_RUB
  if points_earned ≤ 0 then (0, s)
  else
    let base := (s.accounts user_id).getD Account.zero
    let acc : Account :=
      { base with
        points := base.points + points_earned,
        total_orders := base.total_orders + 1,
        total_spent := base.total_spent + order_total }
    (points_earned,
     { accounts := setAccount user_id acc s.accounts,
       history := s.history ++
         [⟨user_id, points_earned, "accrual", order_id,
           "Начисление за заказ #" ++ toString order_id⟩] })

/-- `increment_stamps` (lines 110-160): `INSERT OR IGNORE` the row, read
the stamp count (0 for a fresh row), store `current + 1` and report whether
the new count reached `STAMPS_FOR_FREE_DRINK`.  No auto-reset. -/
def increment_stamps (user_id : Int) (s : LoyaltyDB) :
    (Int × Bool) × LoyaltyDB :=
  let base := (s.accounts user_id).getD Account.zero
  let new_stamps := base.stamps + 1
  let earned_free_drink := decide (STAMPS_FOR_FREE_DRINK ≤ new_stamps)
  ((new_stamps, earned_free_drink),
   { s with accounts := setAccount user_id { base with stamps := new_stamps } s.accounts })

/-- `redeem_points` (lines 163-218): reject `amount <= 0`, a missing row,
or `points < amount`; otherwise subtract the points and append one
`"redemption"` history row holding `-amount`. -/
def redeem_points (user_id amount order_id : Int) (s : LoyaltyDB) :
    Bool × LoyaltyDB :=
  if amount ≤ 0 then (false, s)
  else
    match s.accounts user_id with
    | none => (false, s)
    | some a =>
      if a.points < amount then (false, s)
      else
        (true,
         { accounts := setAccount user_id { a with points := a.points - amount } s.accounts,
           history := s.history ++
             [⟨user_id, -amount, "redemption", order_id,
               "Списание за заказ #" ++ toString order_id⟩] })

/-- `refund_points` (lines 221-276): `SELECT amount FROM points_history
WHERE user_id = ? AND order_id = ? AND operation = 'redemption'` with
`fetchone` and no `ORDER BY` — SQLite scans the rows in rowid (insertion)
order, so the first, i.e. oldest, matching row is used.  If none (or its
absolute amount is not positive) return 0; otherwise add the absolute
amount back (the `UPDATE ... WHERE user_id` is a no-op when the row is
missing) and append one `"refund"` history row. -/
def refund_points (user_id order_id : Int) (s : LoyaltyDB) : Int × LoyaltyDB :=
  match s.history.find? (fun e =>
      e.user_id == user_id && e.order_id == order_id && e.operation == "redemption") with
  | none => (0, s)
  | some e =>
    let redeemed_amount := abs e.amount
    if redeemed_amount ≤ 0 then (0, s)
    else
      (redeemed_amount,
       { accounts := fun u =>
           if u = user_id then
             (s.accounts u).map (fun a => { a with points := a.points + redeemed_amount })
           else s.accounts u,
         history := s.history ++
           [⟨user_id, redeemed_amount, "refund", order_id,
             "Возврат за отмену заказа #" ++ toString order_id⟩] })

/-- `calculate_max_redeem` (lines 304-310):
`min(user_points, order_total * MAX_REDEEM_PERCENT // 100)`. -/
def calculate_max_redeem (order_total user_points : Int) : Int :=
  let max_by_percent := (order_total * MAX_REDEEM_PERCENT).fdiv 100
  min user_points max_by_percent

/-- `use_free_drink` (lines 313-357): fail on a missing row or fewer than
`STAMPS_FOR_FREE_DRINK` stamps; otherwise reset the stamps to 0 (points
untouched). -/
def use_free_drink (user_id : Int) (s : LoyaltyDB) : Bool × LoyaltyDB :=
  match s.accounts user_id with
  | none => (false, s)
  | some a =>
    if a.stamps < STAMPS_FOR_FREE_DRINK then (false, s)
    else (true, { s with accounts := setAccount user_id { a with stamps := 0 } s.accounts })

/-! ## Order data model — `bot/models.py` and the `orders` table -/

/-- `OrderStatus` (`bot/models.py` lines 6-12). -/
inductive OrderStatus where
  | pending
  | confirmed
  | preparing
  | ready
  | completed
  | cancelled
deriving DecidableEq, Repr

/-- `OrderItem` (`bot/models.py` lines 34-38).  The shipped model holds
exactly these four fields — it has no size, modifier or comment field. -/
structure OrderItem where
  menu_item_id : Int
  name : String
  price : Int
  quantity : Int := 1
deriving DecidableEq, Repr

/-- `Order` (`bot/models.py` lines 41-49); `created_at` is an abstract
timestamp. -/
structure Order where
  id : Int
  user_id : Int
  user_name : String
  items : List OrderItem
  total : Int
  pickup_time : String
  status : OrderStatus
  created_at : Int
deriving DecidableEq, Repr

/-- The `orders` table: rows in insertion order plus the next
autoincrement id. -/
structure OrdersDB where
  orders : List Order
  next_id : Int
deriving DecidableEq, Repr

/-! ## Order store operations — `bot/database.py` -/

/-- `create_order` (lines 193-238): `total = sum(price * quantity)`, the
row is inserted with status `confirmed` and the same `Order` is returned;
`now` stands for `datetime.now()`. -/
def create_order (user_id : Int) (user_name : String) (items : List OrderItem)
    (pickup_time : String) (now : Int) (s : OrdersDB) : Order × OrdersDB :=
  let total := (items.map (fun i => i.price * i.quantity)).sum
  let order : Order :=
    { id := s.next_id, user_id := user_id, user_name := user_name, items := items,
      total := total, pickup_time := pickup_time, status := OrderStatus.confirmed,
      created_at := now }
  (order, { orders := s.orders ++ [order], next_id := s.next_id + 1 })

/-- `get_order` (lines 241-250): `SELECT ... WHERE id = ?`, first match. -/
def get_order (order_id : Int) (s : OrdersDB) : Option Order :=
  s.orders.find? (fun o => o.id == order_id)

/-- `update_order_status` (lines 267-274): `UPDATE orders SET status = ?
WHERE id = ?` — unconditional, no legality guard — then `get_order`. -/
def update_order_status (order_id : Int) (status : OrderStatus) (s : OrdersDB) :
    Option Order × OrdersDB :=
  let s' : OrdersDB :=
    { s with orders := s.orders.map (fun o =>
        if o.id == order_id then { o with status := status } else o) }
  (get_order order_id s', s')

/-- `cancel_order_by_client` (lines 398-461): load the row; a missing
order and a foreign owner both answer `"Заказ не найден."`; a status other
than `confirmed` answers `"Заказ уже в работе и не может быть отменён."`;
otherwise set the status to `cancelled`. -/
def cancel_order_by_client (order_id user_id : Int) (s : OrdersDB) :
    (Bool × String) × OrdersDB :=
  match s.orders.find? (fun o => o.id == order_id) with
  | none => ((false, "Заказ не найден."), s)
  | some o =>
    if o.user_id ≠ user_id then ((false, "Заказ не найден."), s)
    else if o.status ≠ OrderStatus.confirmed then
      ((false, "Заказ уже в работе и не может быть отменён."), s)
    else
      ((true, "Заказ #" ++ toString order_id ++ " отменён."),
       { s with orders := s.orders.map (fun x =>
           if x.id == order_id then { x with status := OrderStatus.cancelled } else x) })

/-! ## Menu and cart data model — `bot/models.py`, FSM cart dicts -/

/-- `MenuItem` (`bot/models.py` lines 27-31). -/
structure MenuItem where
  id : Int
  name : String
  price : Int
  available : Bool := true
deriving DecidableEq, Repr

/-- A cart entry of the FSM state (`bot/handlers/client.py`): a plain dict
whose optional keys are read with `c.get(...)`, so a missing key behaves
as the default recorded here (`None`, `[]`, `0`). -/
structure CartLine where
  menu_item_id : Int
  name : String
  price : Int
  quantity : Int
  size : Option String := none
  size_name : Option String := none
  modifier_ids : List Int := []
  modifier_names : List String := []
  modifiers_price : Int := 0
  comment : Option String := none
deriving DecidableEq, Repr

/-- Insert into a sorted list (ascending), as used by `sortedIds`. -/
def insertSorted (a : Int) : List Int → List Int
  | [] => [a]
  | b :: l => if a ≤ b then a :: b :: l else b :: insertSorted a l

/-- Python's `sorted` on a list of ints (insertion sort gives the same
ascending result). -/
def sortedIds : List Int → List Int
  | [] => []
  | a :: l => insertSorted a (sortedIds l)

/-- The shared add-to-cart loop of every handler: walk the cart, bump the
quantity of the first line matching `p` by `i` and stop; append `n` when
no line matches. -/
def mergeAdd (p : CartLine → Bool) (i : Int) (n : CartLine) :
    List CartLine → List CartLine
  | [] => [n]
  | c :: rest =>
    if p c then { c with quantity := c.quantity + i } :: rest
    else c :: mergeAdd p i n rest

/-- The full configuration identity of a cart line:
`(menu_item_id, size-or-none, sorted modifier ids)`. -/
def cartKey (c : CartLine) : Int × Option String × List Int :=
  (c.menu_item_id, c.size, sortedIds c.modifier_ids)

/-- Number of cart lines carrying a given configuration key. -/
def keyCount (k : Int × Option String × List Int) (cart : List CartLine) : Nat :=
  (cart.filter (fun c => decide (cartKey c = k))).length

/-- `add_to_cart` (`bot/handlers/client.py` lines 145-165), the direct
path for an item with neither sizes nor modifiers: match on
`menu_item_id`, `size is None` and empty `modifier_ids`. -/
def add_to_cart_direct (item : MenuItem) (cart : List CartLine) : List CartLine :=
  mergeAdd
    (fun c => decide (c.menu_item_id = item.id ∧ c.size = none ∧ c.modifier_ids = []))
    1
    { menu_item_id := item.id, name := item.name, price := item.price, quantity := 1 }
    cart

/-- `select_size` (`bot/handlers/client.py` lines 272-294), the path for
an item with a size but no modifiers: `final_price = item.price +
price_diff`; match on `menu_item_id`, equal `size` and empty
`modifier_ids`. -/
def select_size_add (item : MenuItem) (size : String) (size_name : String)
    (price_diff : Int) (cart : List CartLine) : List CartLine :=
  let final_price := item.price + price_diff
  mergeAdd
    (fun c => decide (c.menu_item_id = item.id ∧ c.size = some size ∧ c.modifier_ids = []))
    1
    { menu_item_id := item.id, name := item.name, price := final_price, quantity := 1,
      size := some size, size_name := some size_name }
    cart

/-- `modifiers_done` (`bot/handlers/client.py` lines 431-454):
`final_price = base_price + modifiers_price`; match on `menu_item_id`,
equal `size` and equal sorted `modifier_ids`. -/
def modifiers_done_add (item : MenuItem) (size : Option String)
    (size_name : Option String) (base_price : Int) (selected : List Int)
    (modifier_names : List String) (modifiers_price : Int)
    (cart : List CartLine) : List CartLine :=
  let final_price := base_price + modifiers_price
  mergeAdd
    (fun c => decide (c.menu_item_id = item.id ∧ c.size = size
      ∧ sortedIds c.modifier_ids = sortedIds selected))
    1
    { menu_item_id := item.id, name := item.name, price := final_price, quantity := 1,
      size := size, size_name := size_name, modifier_ids := selected,
      modifier_names := modifier_names, modifiers_price := modifiers_price }
    cart

/-- `fav_order` (`bot/handlers/client.py` lines 1774-1791): the favorites
path matches on `menu_item_id` alone — size and modifiers are not
compared. -/
def fav_order_add (item : MenuItem) (cart : List CartLine) : List CartLine :=
  mergeAdd
    (fun c => decide (c.menu_item_id = item.id))
    1
    { menu_item_id := item.id, name := item.name, price := item.price, quantity := 1 }
    cart

/-- `repeat_order` (`bot/handlers/client.py` lines 1580-1604), one
repeated item: match on `menu_item_id`, `size` and sorted `modifier_ids`,
bumping by the repeated quantity; the appended dict carries no comment
key. -/
def repeat_order_add (item : CartLine) (cart : List CartLine) : List CartLine :=
  mergeAdd
    (fun c => decide (c.menu_item_id = item.menu_item_id ∧ c.size = item.size
      ∧ sortedIds c.modifier_ids = sortedIds item.modifier_ids))
    item.quantity
    { menu_item_id := item.menu_item_id, name := item.name, price := item.price,
      quantity := item.quantity, size := item.size, size_name := item.size_name,
      modifier_ids := item.modifier_ids, modifier_names := item.modifier_names,
      modifiers_price := item.modifiers_price, comment := none }
    cart

/-- `confirm_order` (`bot/handlers/client.py` lines 1139-1153) freezing
one cart line: it calls `OrderItem(menu_item_id=..., name=..., price=...,
quantity=..., comment=..., size=..., size_name=..., modifier_ids=...,
modifier_names=..., modifiers_price=...)`, but `bot/models.py`'s
`OrderItem` declares only the four fields below, and pydantic v2's default
`extra='ignore'` silently drops the unknown keyword arguments. -/
def freezeCartLine (c : CartLine) : OrderItem :=
  { menu_item_id := c.menu_item_id, name := c.name, price := c.price,
    quantity := c.quantity }

/-! ## Concrete states used by counterexamples and witnesses -/

/-- An empty loyalty database (no rows at all). -/
def emptyLoyalty : LoyaltyDB := ⟨fun _ => none, []⟩

/-- A loyalty database holding one account with 100 points and an old
redemption history row for order 7. -/
def c5State : LoyaltyDB :=
  { accounts := fun u => if u = 1 then some ⟨100, 0, 0, 0⟩ else none,
    history := [⟨1, -5, "redemption", 7, "Списание за заказ #7"⟩] }

/-- A loyalty database holding one account with 200 points, 3 stamps and
an empty history. -/
def midLoyalty : LoyaltyDB :=
  { accounts := fun u => if u = 1 then some ⟨200, 3, 4, 2000⟩ else none,
    history := [] }

/-- A loyalty database holding one account with 40 points and 6 stamps. -/
def sixStampState : LoyaltyDB :=
  { accounts := fun u => if u = 1 then some ⟨40, 6, 6, 3000⟩ else none,
    history := [] }

/-- A fully configured cart line: size M latte with a vanilla-syrup
modifier and a comment. -/
def c7Rich : CartLine :=
  { menu_item_id := 1, name := "Латте", price := 310, quantity := 1,
    size := some "M", size_name := some "Средний 350мл", modifier_ids := [2],
    modifier_names := ["Ванильный сироп"], modifiers_price := 50,
    comment := some "без сахара" }

/-- The same latte with no size, no modifiers and no comment. -/
def c7Plain : CartLine :=
  { menu_item_id := 1, name := "Латте", price := 310, quantity := 1 }

/-- The latte menu row. -/
def latteItem : MenuItem := { id := 1, name := "Латте", price := 220 }

/-- The espresso menu row. -/
def espressoItem : MenuItem := { id := 1, name := "Эспрессо", price := 120 }

/-- A cart line for a size-M latte with one modifier, as produced by the
size + modifier flow. -/
def mLine : CartLine :=
  { menu_item_id := 1, name := "Латте", price := 310, quantity := 1,
    size := some "M", size_name := some "Средний 350мл", modifier_ids := [2],
    modifier_names := ["Ванильный сироп"], modifiers_price := 50 }

/-- An order store holding one confirmed order of user 10 and one
preparing order of user 11. -/
def twoOrders : OrdersDB :=
  { orders :=
      [ { id := 1, user_id := 10, user_name := "A",
          items := [{ menu_item_id := 1, name := "Латте", price := 220, quantity := 1 }],
          total := 220, pickup_time := "через 15 мин",
          status := OrderStatus.confirmed, created_at := 5 },
        { id := 2, user_id := 11, user_name := "B",
          items := [{ menu_item_id := 2, name := "Раф", price := 280, quantity := 2 }],
          total := 560, pickup_time := "через 30 мин",
          status := OrderStatus.preparing, created_at := 6 } ],
    next_id := 3 }

/-! ## Claim C3 — redemption cap -/

/-- Modelled from the spec: `min(balance, floor(orderTotal × 30 / 100))`
over natural numbers, for comparison with `calculate_max_redeem`. -/
def specMaxRedeemable (orderTotal balance : Nat) : Nat :=
  min balance (orderTotal * 30 / 100)

/-- C3: for all `orderTotal ≥ 0` and `balance ≥ 0`,
`calculate_max_redeem` equals `min(balance, floor(orderTotal * 30 / 100))`,
never exceeds the balance, never exceeds 30% of the order total, and gives
300, 100 and 0 on the three quoted examples. -/
theorem calculate_max_redeem_spec (orderTotal balance : Nat) :
    calculate_max_redeem (orderTotal : Int) (balance : Int)
        = (specMaxRedeemable orderTotal balance : Int)
      ∧ calculate_max_redeem (orderTotal : Int) (balance : Int) ≤ (balance : Int)
      ∧ calculate_max_redeem (orderTotal : Int) (balance : Int)
        ≤ ((orderTotal : Int) * 30).fdiv 100
      ∧ calculate_max_redeem 1000 500 = 300
      ∧ calculate_max_redeem 1000 100 = 100
      ∧ calculate_max_redeem 0 500 = 0 := by
  refine ⟨?_, ?_, ?_, by decide, by decide, by decide⟩
  · show min (balance : Int) (((orderTotal : Int) * MAX_REDEEM_PERCENT).fdiv 100) = _
    have h30 : ((orderTotal : Int) * MAX_REDEEM_PERCENT) = ((orderTotal * 30 : Nat) : Int) := by
      show (orderTotal : Int) * 30 = _
      push_cast
      ring
    have hdiv : ((orderTotal * 30 : Nat) : Int).fdiv (100 : Int)
        = ((orderTotal * 30 / 100 : Nat) : Int) := by
      have h := Int.ofNat_fdiv (orderTotal * 30) 100
      simpa using h.symm
    rw [h30, hdiv]
    rw [specMaxRedeemable]
    push_cast
    rfl
  · exact min_le_left _ _
  · show min (balance : Int) (((orderTotal : Int) * MAX_REDEEM_PERCENT).fdiv 100) ≤ _
    exact min_le_right _ _

/-! ## Claim C9 — order creation total and status -/

/-- C9: `create_order` stores total `Σ price × quantity` and status
`confirmed` (not `pending`), and the returned order carries exactly the
stored total and status. -/
theorem create_order_spec (user_id : Int) (user_name : String)
    (items : List OrderItem) (pickup_time : String) (now : Int) (s : OrdersDB) :
    (create_order user_id user_name items pickup_time now s).1.total
        = (items.map (fun i => i.price * i.quantity)).sum
      ∧ (create_order user_id user_name items pickup_time now s).1.status
        = OrderStatus.confirmed
      ∧ (create_order user_id user_name items pickup_time now s).1.status
        ≠ OrderStatus.pending
      ∧ (create_order user_id user_name items pickup_time now s).2.orders
        = s.orders ++ [(create_order user_id user_name items pickup_time now s).1] := by
  refine ⟨rfl, rfl, by simp [create_order], rfl⟩

/-! ## Cart-merging lemmas (shared helpers for claim C1) -/

theorem insertSorted_ne_nil (a : Int) (l : List Int) : insertSorted a l ≠ [] := by
  cases l with
  | nil => simp [insertSorted]
  | cons b l =>
    simp only [insertSorted]
    split <;> simp

theorem sortedIds_eq_nil {l : List Int} : sortedIds l = [] ↔ l = [] := by
  cases l with
  | nil => simp [sortedIds]
  | cons a l => simp [sortedIds, insertSorted_ne_nil]

theorem cartKey_quantity (c : CartLine) (q : Int) :
    cartKey { c with quantity := q } = cartKey c := rfl

theorem mergeAdd_all_false {p : CartLine → Bool} {i : Int} {n : CartLine} :
    ∀ {cart : List CartLine}, (∀ c ∈ cart, p c = false) →
      mergeAdd p i n cart = cart ++ [n] := by
  intro cart
  induction cart with
  | nil => intro _; rfl
  | cons c rest ih =>
    intro h
    have hc : p c = false := h c (by simp)
    simp [mergeAdd, hc, ih (fun x hx => h x (by simp [hx]))]

theorem mergeAdd_last {p : CartLine → Bool} {i : Int} {n n' : CartLine} :
    ∀ {cart : List CartLine}, (∀ c ∈ cart, p c = false) → p n' = true →
      mergeAdd p i n (cart ++ [n'])
        = cart ++ [{ n' with quantity := n'.quantity + i }] := by
  intro cart
  induction cart with
  | nil =>
    intro _ hn
    simp [mergeAdd, hn]
  | cons c rest ih =>
    intro h hn
    have hc : p c = false := h c (by simp)
    simp [mergeAdd, hc, ih (fun x hx => h x (by simp [hx])) hn]

theorem mergeAdd_mem_of_false {p : CartLine → Bool} {i : Int} {n c : CartLine} :
    ∀ {cart : List CartLine}, c ∈ cart → p c = false →
      c ∈ mergeAdd p i n cart := by
  intro cart
  induction cart with
  | nil => intro h _; exact absurd h (List.not_mem_nil c)
  | cons d rest ih =>
    intro hmem hp
    rcases List.mem_cons.mp hmem with heq | hr
    · subst heq
      simp [mergeAdd, hp]
    · by_cases hd : p d
      · simp only [mergeAdd, hd, if_pos]
        exact List.mem_cons_of_mem _ hr
      · simp only [mergeAdd, hd, if_neg, Bool.false_eq_true, not_false_iff]
        exact List.mem_cons_of_mem _ (ih hr hp)

theorem mergeAdd_exists_key {p : CartLine → Bool} {i : Int} {n : CartLine}
    {k : Int × Option String × List Int}
    (hp : ∀ x, p x = true ↔ cartKey x = k) (hn : cartKey n = k) :
    ∀ (cart : List CartLine), ∃ d ∈ mergeAdd p i n cart, cartKey d = k := by
  intro cart
  induction cart with
  | nil => exact ⟨n, by simp [mergeAdd], hn⟩
  | cons c rest ih =>
    by_cases hc : p c
    · refine ⟨{ c with quantity := c.quantity + i }, ?_, ?_⟩
      · simp [mergeAdd, hc]
      · rw [cartKey_quantity]
        exact (hp c).mp hc
    · obtain ⟨d, hd, hk⟩ := ih
      refine ⟨d, ?_, hk⟩
      simp only [mergeAdd, hc, if_neg, Bool.false_eq_true, not_false_iff]
      exact List.mem_cons_of_mem _ hd

theorem mergeAdd_length_of_match {p : CartLine → Bool} {i : Int} {n : CartLine} :
    ∀ {cart : List CartLine}, (∃ c ∈ cart, p c = true) →
      (mergeAdd p i n cart).length = cart.length := by
  intro cart
  induction cart with
  | nil => rintro ⟨c, hc, -⟩; exact absurd hc (List.not_mem_nil c)
  | cons d rest ih =>
    rintro ⟨c, hmem, hp⟩
    by_cases hd : p d
    · simp [mergeAdd, hd]
    · have hcr : c ∈ rest := by
        rcases List.mem_cons.mp hmem with heq | hr
        · subst heq; exact absurd hp (by simp [hd])
        · exact hr
      simp [mergeAdd, hd, ih ⟨c, hcr, hp⟩]

theorem keyCount_append_last {k : Int × Option String × List Int}
    {cart : List CartLine} (h : ∀ c ∈ cart, cartKey c ≠ k) (m : CartLine)
    (hm : cartKey m = k) : keyCount k (cart ++ [m]) = 1 := by
  unfold keyCount
  rw [List.filter_append]
  have h1 : cart.filter (fun c => decide (cartKey c = k)) = [] := by
    rw [List.filter_eq_nil_iff]
    intro c hc
    simp [h c hc]
  simp [h1, hm]

theorem mergeAdd_key_double {p : CartLine → Bool} {i : Int} {n : CartLine}
    {k : Int × Option String × List Int}
    (hp : ∀ x, p x = true ↔ cartKey x = k) (hn : cartKey n = k)
    {cart : List CartLine} (hfresh : ∀ c ∈ cart, cartKey c ≠ k) :
    mergeAdd p i n (mergeAdd p i n cart)
        = cart ++ [{ n with quantity := n.quantity + i }]
      ∧ keyCount k (mergeAdd p i n (mergeAdd p i n cart)) = 1 := by
  have hfalse : ∀ c ∈ cart, p c = false := by
    intro c hc
    exact Bool.eq_false_iff.mpr fun ht => hfresh c hc ((hp c).mp ht)
  have h1 : mergeAdd p i n cart = cart ++ [n] := mergeAdd_all_false hfalse
  rw [h1, mergeAdd_last hfalse ((hp n).mpr hn)]
  refine ⟨rfl, ?_⟩
  exact keyCount_append_last hfresh _ hn

theorem key_direct_iff (item : MenuItem) (c : CartLine) :
    (decide (c.menu_item_id = item.id ∧ c.size = none ∧ c.modifier_ids = []) = true)
      ↔ cartKey c = (item.id, none, ([] : List Int)) := by
  simp [cartKey, sortedIds_eq_nil, and_assoc]

theorem key_size_iff (item : MenuItem) (size : String) (c : CartLine) :
    (decide (c.menu_item_id = item.id ∧ c.size = some size ∧ c.modifier_ids = []) = true)
      ↔ cartKey c = (item.id, some size, ([] : List Int)) := by
  simp [cartKey, sortedIds_eq_nil, and_assoc]

theorem key_mods_iff (item : MenuItem) (size : Option String) (selected : List Int)
    (c : CartLine) :
    (decide (c.menu_item_id = item.id ∧ c.size = size
        ∧ sortedIds c.modifier_ids = sortedIds selected) = true)
      ↔ cartKey c = (item.id, size, sortedIds selected) := by
  simp [cartKey, and_assoc]

theorem key_repeat_iff (item : CartLine) (c : CartLine) :
    (decide (c.menu_item_id = item.menu_item_id ∧ c.size = item.size
        ∧ sortedIds c.modifier_ids = sortedIds item.modifier_ids) = true)
      ↔ cartKey c = cartKey item := by
  simp [cartKey, and_assoc]

/-! ## Claim C1 — cart-line identity across the add-to-cart paths -/

/-- C1 (counterexample): the favorites path does not respect the full
configuration key.  The cart holds one size-M latte with a vanilla
modifier; `fav_order` adds the plain latte, whose configuration key
differs, yet the code increments the existing line (one line, quantity 2)
instead of creating a distinct second line. -/
theorem fav_order_merge_counterexample :
    fav_order_add latteItem [mLine] = [{ mLine with quantity := 2 }]
      ∧ (fav_order_add latteItem [mLine]).length = 1
      ∧ cartKey { menu_item_id := latteItem.id, name := latteItem.name,
                  price := latteItem.price, quantity := 1 } ≠ cartKey mLine := by
  refine ⟨?_, ?_, by decide⟩ <;> rfl

/-- C1 (amended): on the direct-add, size-selection, modifier-selection
and repeat-order paths, adding a configuration whose key `(menu_item_id,
size-or-none, sorted modifier ids)` is absent appends one line, adding it
a second time merges into that line (one line of that key, quantity
doubled), lines of a different key are never touched, and the cart always
ends up holding a line of the added key; the favorites path, however,
matches on `menu_item_id` alone: it increments some existing line with the
same item id regardless of its size or modifier set, and appends a plain
line only when no line with that item id exists. -/
theorem cart_identity_amended :
    (∀ (item : MenuItem) (cart : List CartLine),
      ((∀ c ∈ cart, cartKey c ≠ (item.id, none, ([] : List Int))) →
        add_to_cart_direct item (add_to_cart_direct item cart)
          = cart ++
            [{ menu_item_id := item.id, name := item.name,
               price := item.price, quantity := 2 }]
        ∧ keyCount (item.id, none, [])
            (add_to_cart_direct item (add_to_cart_direct item cart)) = 1)
      ∧ (∀ c ∈ cart, cartKey c ≠ (item.id, none, ([] : List Int)) →
          c ∈ add_to_cart_direct item cart)
      ∧ (∃ d ∈ add_to_cart_direct item cart,
          cartKey d = (item.id, none, ([] : List Int))))
    ∧ (∀ (item : MenuItem) (size size_name : String) (price_diff : Int)
        (cart : List CartLine),
      ((∀ c ∈ cart, cartKey c ≠ (item.id, some size, ([] : List Int))) →
        select_size_add item size size_name price_diff
            (select_size_add item size size_name price_diff cart)
          = cart ++
            [{ menu_item_id := item.id, name := item.name,
               price := item.price + price_diff, quantity := 2,
               size := some size, size_name := some size_name }]
        ∧ keyCount (item.id, some size, [])
            (select_size_add item size size_name price_diff
              (select_size_add item size size_name price_diff cart)) = 1)
      ∧ (∀ c ∈ cart, cartKey c ≠ (item.id, some size, ([] : List Int)) →
          c ∈ select_size_add item size size_name price_diff cart)
      ∧ (∃ d ∈ select_size_add item size size_name price_diff cart,
          cartKey d = (item.id, some size, ([] : List Int))))
    ∧ (∀ (item : MenuItem) (size : Option String) (size_name : Option String)
        (base_price : Int) (selected : List Int) (modifier_names : List String)
        (modifiers_price : Int) (cart : List CartLine),
      ((∀ c ∈ cart, cartKey c ≠ (item.id, size, sortedIds selected)) →
        modifiers_done_add item size size_name base_price selected modifier_names
            modifiers_price
            (modifiers_done_add item size size_name base_price selected
              modifier_names modifiers_price cart)
          = cart ++
            [{ menu_item_id := item.id, name := item.name,
               price := base_price + modifiers_price, quantity := 2,
               size := size, size_name := size_name, modifier_ids := selected,
               modifier_names := modifier_names, modifiers_price := modifiers_price }]
        ∧ keyCount (item.id, size, sortedIds selected)
            (modifiers_done_add item size size_name base_price selected
              modifier_names modifiers_price
              (modifiers_done_add item size size_name base_price selected
                modifier_names modifiers_price cart)) = 1)
      ∧ (∀ c ∈ cart, cartKey c ≠ (item.id, size, sortedIds selected) →
          c ∈ modifiers_done_add item size size_name base_price selected
                modifier_names modifiers_price cart)
      ∧ (∃ d ∈ modifiers_done_add item size size_name base_price selected
            modifier_names modifiers_price cart,
          cartKey d = (item.id, size, sortedIds selected)))
    ∧ (∀ (item : CartLine) (cart : List CartLine),
      ((∀ c ∈ cart, cartKey c ≠ cartKey item) →
        repeat_order_add item (repeat_order_add item cart)
          = cart ++
            [{ menu_item_id := item.menu_item_id, name := item.name,
               price := item.price, quantity := item.quantity + item.quantity,
               size := item.size, size_name := item.size_name,
               modifier_ids := item.modifier_ids,
               modifier_names := item.modifier_names,
               modifiers_price := item.modifiers_price, comment := none }]
        ∧ keyCount (cartKey item)
            (repeat_order_add item (repeat_order_add item cart)) = 1)
      ∧ (∀ c ∈ cart, cartKey c ≠ cartKey item → c ∈ repeat_order_add item cart)
      ∧ (∃ d ∈ repeat_order_add item cart, cartKey d = cartKey item))
    ∧ (∀ (item : MenuItem) (cart : List CartLine),
      ((∃ c ∈ cart, c.menu_item_id = item.id) →
        (fav_order_add item cart).length = cart.length)
      ∧ ((∀ c ∈ cart, c.menu_item_id ≠ item.id) →
        fav_order_add item cart
          = cart ++
            [{ menu_item_id := item.id, name := item.name,
               price := item.price, quantity := 1 }])) := by
  refine ⟨?_, ?_, ?_, ?_, ?_⟩
  · intro item cart
    refine ⟨fun hfresh => ?_, fun c hc hk => ?_, ?_⟩
    · refine mergeAdd_key_double (key_direct_iff item) ?_ hfresh
      rfl
    · exact mergeAdd_mem_of_false hc
        (Bool.eq_false_iff.mpr fun ht => hk ((key_direct_iff item c).mp ht))
    · refine mergeAdd_exists_key (key_direct_iff item) ?_ cart
      rfl
  · intro item size size_name price_diff cart
    refine ⟨fun hfresh => ?_, fun c hc hk => ?_, ?_⟩
    · refine mergeAdd_key_double (key_size_iff item size) ?_ hfresh
      rfl
    · exact mergeAdd_mem_of_false hc
        (Bool.eq_false_iff.mpr fun ht => hk ((key_size_iff item size c).mp ht))
    · refine mergeAdd_exists_key (key_size_iff item size) ?_ cart
      rfl
  · intro item size size_name base_price selected modifier_names modifiers_price cart
    refine ⟨fun hfresh => ?_, fun c hc hk => ?_, ?_⟩
    · refine mergeAdd_key_double (key_mods_iff item size selected) ?_ hfresh
      rfl
    · exact mergeAdd_mem_of_false hc
        (Bool.eq_false_iff.mpr fun ht => hk ((key_mods_iff item size selected c).mp ht))
    · refine mergeAdd_exists_key (key_mods_iff item size selected) ?_ cart
      rfl
  · intro item cart
    refine ⟨fun hfresh => ?_, fun c hc hk => ?_, ?_⟩
    · refine mergeAdd_key_double (key_repeat_iff item) ?_ hfresh
      rfl
    · exact mergeAdd_mem_of_false hc
        (Bool.eq_false_iff.mpr fun ht => hk ((key_repeat_iff item c).mp ht))
    · refine mergeAdd_exists_key (key_repeat_iff item) ?_ cart
      rfl
  · intro item cart
    constructor
    · rintro ⟨c, hc, hid⟩
      exact mergeAdd_length_of_match ⟨c, hc, by simp [hid]⟩
    · intro h
      exact mergeAdd_all_false fun c hc => by simp [h c hc]

/-- C1 (witness): the amended theorem at the espresso item and the empty
cart — two direct adds yield one line of quantity 2. -/
theorem cart_identity_amended_witness :
    add_to_cart_direct espressoItem (add_to_cart_direct espressoItem [])
      = [{ menu_item_id := 1, name := "Эспрессо", price := 120, quantity := 2 }] := by
  have h := ((cart_identity_amended.1 espressoItem []).1 (by simp)).1
  simpa [espressoItem] using h

/-! ## List-query helpers shared by the loyalty and order-store claims -/

theorem find?_append_of_none {α : Type} (p : α → Bool) {l1 : List α} (l2 : List α)
    (h : ∀ x ∈ l1, p x = false) : (l1 ++ l2).find? p = l2.find? p := by
  induction l1 with
  | nil => rfl
  | cons a l ih =>
    have ha : p a = false := h a (by simp)
    simp only [List.cons_append, List.find?]
    rw [ha]
    exact ih (fun x hx => h x (by simp [hx]))

theorem find?_map_set_status (oid : Int) (st : OrderStatus) :
    ∀ (l : List Order),
      (l.map (fun o => if o.id == oid then { o with status := st } else o)).find?
          (fun o => o.id == oid)
        = (l.find? (fun o => o.id == oid)).map (fun o => { o with status := st }) := by
  intro l
  induction l with
  | nil => rfl
  | cons a l ih =>
    by_cases h : a.id = oid
    · simp [List.find?, h]
    · have hb : (a.id == oid) = false := by simpa using h
      simp only [List.map_cons, hb, Bool.false_eq_true, if_false, List.find?]
      exact ih

/-! ## Claim C2 — point accrual -/

/-- C2: for `orderTotal ≥ 0`, `accrue_points` returns exactly
`floor(orderTotal / 100) * 5`; when that value is `≤ 0` nothing is
mutated; otherwise the balance grows by that value, the lifetime order
count by one, the lifetime spend by the order total, every other user's
row is untouched, and exactly one positive `"accrual"` history entry
linked to the order id is appended. -/
theorem accrue_points_spec (user_id order_total order_id : Int) (s : LoyaltyDB)
    (htot : 0 ≤ order_total) :
    (accrue_points user_id order_total order_id s).1 = order_total.fdiv 100 * 5
      ∧ (order_total.fdiv 100 * 5 ≤ 0 →
          (accrue_points user_id order_total order_id s).2 = s)
      ∧ (0 < order_total.fdiv 100 * 5 →
          (accrue_points user_id order_total order_id s).2.accounts user_id
              = some { points := ((s.accounts user_id).getD Account.zero).points
                                   + order_total.fdiv 100 * 5,
                       stamps := ((s.accounts user_id).getD Account.zero).stamps,
                       total_orders :=
                         ((s.accounts user_id).getD Account.zero).total_orders + 1,
                       total_spent := ((s.accounts user_id).getD Account.zero).total_spent
                                        + order_total }
            ∧ (∀ u, u ≠ user_id →
                (accrue_points user_id order_total order_id s).2.accounts u
                  = s.accounts u)
            ∧ (accrue_points user_id order_total order_id s).2.history
              = s.history ++
                  [⟨user_id, order_total.fdiv 100 * 5, "accrual", order_id,
                    "Начисление за заказ #" ++ toString order_id⟩]) := by
  have h5 : 0 ≤ order_total.fdiv 100 * 5 :=
    mul_nonneg (Int.fdiv_nonneg htot (by norm_num)) (by norm_num)
  by_cases hle : order_total.fdiv 100 * 5 ≤ 0
  · have h0 : order_total.fdiv 100 * 5 = 0 := le_antisymm hle h5
    refine ⟨?_, fun _ => ?_, fun hpos => by omega⟩
    · simp [accrue_points, POINTS_PER_100_RUB, hle, h0]
    · simp [accrue_points, POINTS_PER_100_RUB, hle]
  · refine ⟨?_, fun h => absurd h hle, fun _ => ⟨?_, fun u hu => ?_, ?_⟩⟩
    · simp [accrue_points, POINTS_PER_100_RUB, hle]
    · simp [accrue_points, POINTS_PER_100_RUB, hle, setAccount]
    · simp [accrue_points, POINTS_PER_100_RUB, hle, setAccount, hu]
    · simp [accrue_points, POINTS_PER_100_RUB, hle]

/-- C2 (witness): user 1, order total 150, order 9, empty database —
`accrue_points` returns `floor(150/100) * 5`. -/
theorem accrue_points_spec_witness :
    (0 : Int) ≤ 150
      ∧ (accrue_points 1 150 9 emptyLoyalty).1 = (150 : Int).fdiv 100 * 5 :=
  ⟨by decide, (accrue_points_spec 1 150 9 emptyLoyalty (by decide)).1⟩

/-! ## Claim C4 — point redemption guard -/

/-- C4: `redeem_points` returns `false` with no mutation exactly when the
amount is not positive, the loyalty row is missing, or the balance is
below the amount; otherwise it returns `true`, decrements the balance by
the amount, leaves every other user untouched and appends exactly one
`"redemption"` history entry with the amount negated, linked to the order
id. -/
theorem redeem_points_spec (user_id amount order_id : Int) (s : LoyaltyDB) :
    (amount ≤ 0 → redeem_points user_id amount order_id s = (false, s))
      ∧ (s.accounts user_id = none →
          redeem_points user_id amount order_id s = (false, s))
      ∧ (∀ a, s.accounts user_id = some a → a.points < amount →
          redeem_points user_id amount order_id s = (false, s))
      ∧ (∀ a, s.accounts user_id = some a → 0 < amount → amount ≤ a.points →
          (redeem_points user_id amount order_id s).1 = true
            ∧ (redeem_points user_id amount order_id s).2.accounts user_id
              = some { a with points := a.points - amount }
            ∧ (∀ u, u ≠ user_id →
                (redeem_points user_id amount order_id s).2.accounts u = s.accounts u)
            ∧ (redeem_points user_id amount order_id s).2.history
              = s.history ++
                  [⟨user_id, -amount, "redemption", order_id,
                    "Списание за заказ #" ++ toString order_id⟩]) := by
  refine ⟨fun h => by simp [redeem_points, h], fun h => ?_, fun a ha hlt => ?_,
    fun a ha h0 hle => ?_⟩
  · by_cases hamt : amount ≤ 0
    · simp [redeem_points, hamt]
    · simp [redeem_points, hamt, h]
  · by_cases hamt : amount ≤ 0
    · simp [redeem_points, hamt]
    · simp [redeem_points, hamt, ha, hlt]
  · have hamt : ¬ amount ≤ 0 := by omega
    have hnlt : ¬ a.points < amount := by omega
    refine ⟨?_, ?_, fun u hu => ?_, ?_⟩
    · simp [redeem_points, hamt, ha, hnlt]
    · simp [redeem_points, hamt, ha, hnlt, setAccount]
    · simp [redeem_points, hamt, ha, hnlt, setAccount, hu]
    · simp [redeem_points, hamt, ha, hnlt]

/-- C4 (witness): user 1 with 200 points redeems 50 for order 7 — the
call succeeds. -/
theorem redeem_points_spec_witness :
    (redeem_points 1 50 7 midLoyalty).1 = true :=
  ((redeem_points_spec 1 50 7 midLoyalty).2.2.2 ⟨200, 3, 4, 2000⟩
    (by decide) (by decide) (by decide)).1

/-! ## Claim C5 — redeem/refund round trip -/

/-- C5 (counterexample): the claim quantifies over every account state,
but `refund_points` picks the oldest matching history row.  In `c5State`
the history already holds a redemption of 5 points for order 7; after a
successful `redeem_points` of 10 points for the same order, `refund_points`
returns 5 (not 10) and leaves the balance at 95 (not the pre-redeem
100). -/
theorem refund_roundtrip_counterexample :
    (redeem_points 1 10 7 c5State).1 = true
      ∧ (refund_points 1 7 (redeem_points 1 10 7 c5State).2).1 = 5
      ∧ (refund_points 1 7 (redeem_points 1 10 7 c5State).2).1 ≠ 10
      ∧ ((refund_points 1 7 (redeem_points 1 10 7 c5State).2).2.accounts 1).map
            Account.points = some 95
      ∧ (95 : Int) ≠ 100 := by
  refine ⟨by decide, by decide, by decide, by decide, by decide⟩

/-- C5 (amended): provided the history holds no earlier `"redemption"`
entry for this user and order, a successful `redeem_points` followed by
`refund_points` restores the balance to its pre-redeem value, with
`refund_points` returning the redeemed amount and appending one positive
`"refund"` entry linked to the order id; and on any state with no
redemption entry for the pair, `refund_points` returns 0 and mutates
nothing. -/
theorem redeem_refund_roundtrip (user_id amount order_id : Int) (s : LoyaltyDB)
    (a : Account)
    (hclean : ∀ e ∈ s.history,
        ¬(e.user_id = user_id ∧ e.order_id = order_id ∧ e.operation = "redemption"))
    (ha : s.accounts user_id = some a) (h0 : 0 < amount) (hle : amount ≤ a.points) :
    (redeem_points user_id amount order_id s).1 = true
      ∧ (refund_points user_id order_id (redeem_points user_id amount order_id s).2).1
          = amount
      ∧ (refund_points user_id order_id
            (redeem_points user_id amount order_id s).2).2.accounts user_id = some a
      ∧ (refund_points user_id order_id
            (redeem_points user_id amount order_id s).2).2.history
          = s.history
              ++ [⟨user_id, -amount, "redemption", order_id,
                    "Списание за заказ #" ++ toString order_id⟩]
              ++ [⟨user_id, amount, "refund", order_id,
                    "Возврат за отмену заказа #" ++ toString order_id⟩]
      ∧ (∀ s' : LoyaltyDB,
          (∀ e ∈ s'.history,
            ¬(e.user_id = user_id ∧ e.order_id = order_id ∧ e.operation = "redemption")) →
          refund_points user_id order_id s' = (0, s')) := by
  have hamt : ¬ amount ≤ 0 := by omega
  have hnlt : ¬ a.points < amount := by omega
  have hnoop : ∀ s' : LoyaltyDB,
      (∀ e ∈ s'.history,
        ¬(e.user_id = user_id ∧ e.order_id = order_id ∧ e.operation = "redemption")) →
      refund_points user_id order_id s' = (0, s') := by
    intro s' hclean'
    have hnone : s'.history.find? (fun e =>
        e.user_id == user_id && e.order_id == order_id && e.operation == "redemption")
          = none := by
      rw [List.find?_eq_none]
      intro x hx ht
      exact hclean' x hx (by simpa [Bool.and_eq_true, and_assoc] using ht)
    simp [refund_points, hnone]
  have hred : redeem_points user_id amount order_id s
      = (true,
         ⟨setAccount user_id { a with points := a.points - amount } s.accounts,
          s.history ++ [⟨user_id, -amount, "redemption", order_id,
            "Списание за заказ #" ++ toString order_id⟩]⟩) := by
    simp [redeem_points, hamt, ha, hnlt]
  have hfalse : ∀ x ∈ s.history, (fun e =>
      e.user_id == user_id && e.order_id == order_id && e.operation == "redemption") x
        = false := by
    intro x hx
    apply Bool.eq_false_iff.mpr
    intro ht
    exact hclean x hx (by simpa [Bool.and_eq_true, and_assoc] using ht)
  have hnone0 : s.history.find? (fun e =>
      e.user_id == user_id && e.order_id == order_id && e.operation == "redemption")
        = none :=
    List.find?_eq_none.mpr (fun x hx => by simp [hfalse x hx])
  have habs : abs (-amount) = amount := by
    rw [abs_neg]
    exact abs_of_pos h0
  have hne0 : ¬ (-amount = 0) := by omega
  have hpts : a.points - amount + amount = a.points := by omega
  refine ⟨by rw [hred], ?_, ?_, ?_, hnoop⟩
  · rw [hred]
    simp [refund_points, hnone0, List.find?, habs, hne0, hamt]
  · rw [hred]
    simp [refund_points, hnone0, List.find?, habs, hne0, hamt, setAccount, hpts]
  · rw [hred]
    simp [refund_points, hnone0, List.find?, habs, hne0, hamt]

/-- C5 (witness): user 1 with 200 points and an empty history redeems 50
for order 7; the refund returns 50. -/
theorem redeem_refund_roundtrip_witness :
    (refund_points 1 7 (redeem_points 1 50 7 midLoyalty).2).1 = 50 :=
  (redeem_refund_roundtrip 1 50 7 midLoyalty ⟨200, 3, 4, 2000⟩
    (by simp [midLoyalty]) (by decide) (by decide) (by decide)).2.1

/-! ## Claim C6 — client-side cancellation guard -/

/-- C6: `cancel_order_by_client` succeeds and sets the status to
`cancelled` exactly when the order exists, the owner matches and the
status is `confirmed`; every other case fails with the store unchanged,
and a missing order and a foreign owner answer the identical
`"Заказ не найден."` message.  On success only the status of the matching
row changes: rows with another id are kept verbatim. -/
theorem cancel_order_by_client_spec (order_id user_id : Int) (s : OrdersDB) :
    (get_order order_id s = none →
        cancel_order_by_client order_id user_id s = ((false, "Заказ не найден."), s))
      ∧ (∀ o, get_order order_id s = some o → o.user_id ≠ user_id →
          cancel_order_by_client order_id user_id s = ((false, "Заказ не найден."), s))
      ∧ (∀ o, get_order order_id s = some o → o.user_id = user_id →
          o.status ≠ OrderStatus.confirmed →
          cancel_order_by_client order_id user_id s
            = ((false, "Заказ уже в работе и не может быть отменён."), s))
      ∧ (∀ o, get_order order_id s = some o → o.user_id = user_id →
          o.status = OrderStatus.confirmed →
          (cancel_order_by_client order_id user_id s).1
              = (true, "Заказ #" ++ toString order_id ++ " отменён.")
            ∧ (cancel_order_by_client order_id user_id s).2.orders
              = s.orders.map (fun x =>
                  if x.id == order_id then { x with status := OrderStatus.cancelled }
                  else x)
            ∧ get_order order_id (cancel_order_by_client order_id user_id s).2
              = some { o with status := OrderStatus.cancelled }
            ∧ (∀ x ∈ s.orders, x.id ≠ order_id →
                x ∈ (cancel_order_by_client order_id user_id s).2.orders)) := by
  refine ⟨fun h => ?_, fun o ho hne => ?_, fun o ho heq hst => ?_,
    fun o ho heq hst => ?_⟩
  · rw [get_order] at h
    simp [cancel_order_by_client, h]
  · rw [get_order] at ho
    simp [cancel_order_by_client, ho, hne]
  · rw [get_order] at ho
    simp [cancel_order_by_client, ho, heq, hst]
  · rw [get_order] at ho
    have hmain : cancel_order_by_client order_id user_id s
        = ((true, "Заказ #" ++ toString order_id ++ " отменён."),
           { s with orders := s.orders.map (fun x =>
               if x.id == order_id then { x with status := OrderStatus.cancelled }
               else x) }) := by
      simp [cancel_order_by_client, ho, heq, hst]
    refine ⟨by rw [hmain], by rw [hmain], ?_, fun x hx hne => ?_⟩
    · rw [hmain, get_order]
      show (s.orders.map (fun x =>
          if x.id == order_id then { x with status := OrderStatus.cancelled }
          else x)).find? (fun x => x.id == order_id) = _
      rw [find?_map_set_status, ho]
      rfl
    · rw [hmain]
      exact List.mem_map.mpr ⟨x, hx, by simp [hne]⟩

/-- C6 (witness): order 1 of user 10 in state `confirmed` is cancelled by
user 10. -/
theorem cancel_order_by_client_spec_witness :
    (cancel_order_by_client 1 10 twoOrders).1
      = (true, "Заказ #" ++ toString (1 : Int) ++ " отменён.") :=
  ((cancel_order_by_client_spec 1 10 twoOrders).2.2.2
    { id := 1, user_id := 10, user_name := "A",
      items := [{ menu_item_id := 1, name := "Латте", price := 220, quantity := 1 }],
      total := 220, pickup_time := "через 15 мин",
      status := OrderStatus.confirmed, created_at := 5 }
    (by decide) (by decide) (by decide)).1

/-! ## Claim C8 — stamps -/

/-- C8: `increment_stamps` always stores exactly `current + 1` (no
auto-reset) and reports a free drink iff the new count is at least 6,
touching neither the other counters of the row, other users, nor the
history; `use_free_drink` succeeds and resets the stamps to 0 (points
untouched) exactly when the row exists with at least 6 stamps, and
otherwise fails leaving the state unchanged; and six increments from an
empty database yield counts 1..6 with the free-drink flag raised on the
sixth call only. -/
theorem stamps_spec :
    (∀ (user_id : Int) (s : LoyaltyDB),
        (increment_stamps user_id s).1.1
            = ((s.accounts user_id).getD Account.zero).stamps + 1
          ∧ ((increment_stamps user_id s).1.2 = true
              ↔ 6 ≤ ((s.accounts user_id).getD Account.zero).stamps + 1)
          ∧ (increment_stamps user_id s).2.accounts user_id
            = some { (s.accounts user_id).getD Account.zero with
                     stamps := ((s.accounts user_id).getD Account.zero).stamps + 1 }
          ∧ (∀ u, u ≠ user_id →
              (increment_stamps user_id s).2.accounts u = s.accounts u)
          ∧ (increment_stamps user_id s).2.history = s.history)
      ∧ (∀ (user_id : Int) (s : LoyaltyDB),
          (s.accounts user_id = none → use_free_drink user_id s = (false, s))
            ∧ (∀ a, s.accounts user_id = some a → a.stamps < 6 →
                use_free_drink user_id s = (false, s))
            ∧ (∀ a, s.accounts user_id = some a → 6 ≤ a.stamps →
                (use_free_drink user_id s).1 = true
                  ∧ (use_free_drink user_id s).2.accounts user_id
                    = some { a with stamps := 0 }
                  ∧ (∀ u, u ≠ user_id →
                      (use_free_drink user_id s).2.accounts u = s.accounts u)
                  ∧ (use_free_drink user_id s).2.history = s.history))
      ∧ ((increment_stamps 1 emptyLoyalty).1 = (1, false)
          ∧ (increment_stamps 1 (increment_stamps 1 emptyLoyalty).2).1 = (2, false)
          ∧ (increment_stamps 1 (increment_stamps 1
              (increment_stamps 1 emptyLoyalty).2).2).1 = (3, false)
          ∧ (increment_stamps 1 (increment_stamps 1 (increment_stamps 1
              (increment_stamps 1 emptyLoyalty).2).2).2).1 = (4, false)
          ∧ (increment_stamps 1 (increment_stamps 1 (increment_stamps 1
              (increment_stamps 1 (increment_stamps 1
                emptyLoyalty).2).2).2).2).1 = (5, false)
          ∧ (increment_stamps 1 (increment_stamps 1 (increment_stamps 1
              (increment_stamps 1 (increment_stamps 1 (increment_stamps 1
                emptyLoyalty).2).2).2).2).2).1 = (6, true)) := by
  refine ⟨fun user_id s => ?_, fun user_id s => ?_, ?_⟩
  · refine ⟨rfl, ?_, ?_, fun u hu => ?_, rfl⟩
    · simp [increment_stamps, STAMPS_FOR_FREE_DRINK]
    · simp [increment_stamps, setAccount]
    · simp [increment_stamps, setAccount, hu]
  · refine ⟨fun h => by simp [use_free_drink, h], fun a ha hlt => ?_,
      fun a ha hge => ?_⟩
    · have : a.stamps < STAMPS_FOR_FREE_DRINK := by
        simpa [STAMPS_FOR_FREE_DRINK] using hlt
      simp [use_free_drink, ha, this]
    · have hn : ¬ a.stamps < STAMPS_FOR_FREE_DRINK := by
        simp [STAMPS_FOR_FREE_DRINK]
        omega
      refine ⟨?_, ?_, fun u hu => ?_, ?_⟩
      · simp [use_free_drink, ha, hn]
      · simp [use_free_drink, ha, hn, setAccount]
      · simp [use_free_drink, ha, hn, setAccount, hu]
      · simp [use_free_drink, ha, hn]
  · refine ⟨by decide, by decide, by decide, by decide, by decide, by decide⟩

/-- C8 (witness): user 1 with 6 stamps successfully uses the free
drink. -/
theorem stamps_spec_witness :
    (use_free_drink 1 sixStampState).1 = true :=
  ((stamps_spec.2.1 1 sixStampState).2.2 ⟨40, 6, 6, 3000⟩ (by decide) (by decide)).1

/-! ## Claim C10 — unconditional staff status update -/

/-- C10: for an existing order, `update_order_status` overwrites the
status with the given value with no legality guard — any status jump is
applied — and leaves the order's items, total, user id, user name,
pickup-time label and creation timestamp unchanged; rows with another id
are kept verbatim. -/
theorem update_order_status_spec (order_id : Int) (st : OrderStatus) (s : OrdersDB)
    (o : Order) (h : get_order order_id s = some o) :
    (update_order_status order_id st s).2.orders
        = s.orders.map (fun x => if x.id == order_id then { x with status := st }
            else x)
      ∧ (update_order_status order_id st s).1 = some { o with status := st }
      ∧ get_order order_id (update_order_status order_id st s).2
        = some { o with status := st }
      ∧ (Order.items { o with status := st } = o.items
          ∧ Order.total { o with status := st } = o.total
          ∧ Order.user_id { o with status := st } = o.user_id
          ∧ Order.user_name { o with status := st } = o.user_name
          ∧ Order.pickup_time { o with status := st } = o.pickup_time
          ∧ Order.created_at { o with status := st } = o.created_at)
      ∧ (∀ x ∈ s.orders, x.id ≠ order_id →
          x ∈ (update_order_status order_id st s).2.orders) := by
  rw [get_order] at h
  have hfind : get_order order_id (update_order_status order_id st s).2
      = some { o with status := st } := by
    rw [get_order]
    show (s.orders.map (fun x => if x.id == order_id then { x with status := st }
        else x)).find? (fun x => x.id == order_id) = _
    rw [find?_map_set_status, h]
    rfl
  refine ⟨rfl, hfind, hfind, ⟨rfl, rfl, rfl, rfl, rfl, rfl⟩, fun x hx hne => ?_⟩
  exact List.mem_map.mpr ⟨x, hx, by simp [hne]⟩

/-- C10 (witness): order 2 of `twoOrders` (currently `preparing`) is
jumped straight to `cancelled` — no guard fires and the other fields
survive. -/
theorem update_order_status_spec_witness :
    (update_order_status 2 OrderStatus.cancelled twoOrders).1
      = some { id := 2, user_id := 11, user_name := "B",
               items := [{ menu_item_id := 2, name := "Раф", price := 280,
                           quantity := 2 }],
               total := 560, pickup_time := "через 30 мин",
               status := OrderStatus.cancelled, created_at := 6 } :=
  (update_order_status_spec 2 OrderStatus.cancelled twoOrders
    { id := 2, user_id := 11, user_name := "B",
      items := [{ menu_item_id := 2, name := "Раф", price := 280, quantity := 2 }],
      total := 560, pickup_time := "через 30 мин",
      status := OrderStatus.preparing, created_at := 6 }
    (by decide)).2.1

/-! ## Claim C7 — freezing cart lines into order lines -/

/-- C7: the freeze step of `confirm_order` cannot preserve size, modifier
ids and names, or comment — `bot/models.py`'s `OrderItem` has no such
fields, so pydantic drops them.  Two cart lines that differ in size,
modifier set and comment freeze to the same `OrderItem`, and the order
persisted from the configured line stores only the four plain fields.
This contradicts the repository's own tests (`tests/test_models.py`,
`TestOrderItem`), which require `OrderItem` to carry `comment`, `size`,
`size_name`, `modifier_ids`, `modifier_names` and `modifiers_price`. -/
theorem confirm_order_drops_configuration :
    freezeCartLine c7Rich = freezeCartLine c7Plain
      ∧ c7Rich ≠ c7Plain
      ∧ c7Rich.size ≠ c7Plain.size
      ∧ c7Rich.modifier_ids ≠ c7Plain.modifier_ids
      ∧ c7Rich.comment ≠ c7Plain.comment
      ∧ (create_order 10 "A" [freezeCartLine c7Rich] "через 15 мин" 0
          ⟨[], 1⟩).1.items
        = [{ menu_item_id := 1, name := "Латте", price := 310, quantity := 1 }] := by
  refine ⟨rfl, by decide, by decide, by decide, by decide, rfl⟩

end Etlon
